import Mathlib

/-!
Verification development for the `whowhatbench` CLI script `wwb.py`.

The script is orchestration code: it parses arguments, conditionally loads a
base and a target causal-LM from one of several backends, loads prompts from a
dataset, delegates scoring to an external `Evaluator`, and writes CSV/log
output.  We shallowly embed the pure control flow of the script:

* Python strings are Lean `String`s; the Python `str` helpers the script uses
  (`split`, `splitlines`, `lower`, slicing, truthiness) are re-implemented
  structurally on the underlying character list so the kernel can evaluate
  them.  `splitlines` is modelled for the newline character only.
* External library calls (`datasets.load_dataset`, `os.path.exists`,
  `from_pretrained`, the `Evaluator` methods, `difflib.SequenceMatcher`) are
  oracles: fields of an environment structure supplied as a parameter.
* `main` is embedded as a function producing the list of externally visible
  calls (events) it performs, assuming the external calls themselves succeed.
-/

/-- Truthiness of a Python string: non-empty. -/
def strTruthy (s : String) : Bool :=
  !s.data.isEmpty

/-- Truthiness of an optional Python string (`None` and `""` are falsy). -/
def pyTruthy : Option String → Bool
  | none => false
  | some s => strTruthy s

/-- Helper for `pySplit`: splits the remaining characters at `sep`, with the
characters of the current fragment accumulated in reverse. -/
def splitSepAux (sep : Char) : List Char → List Char → List String
  | [], acc => [⟨acc.reverse⟩]
  | c :: cs, acc =>
    if c = sep then ⟨acc.reverse⟩ :: splitSepAux sep cs []
    else splitSepAux sep cs (c :: acc)

/-- Python `s.split(sep)` for a one-character separator: always returns at
least one fragment, and `"".split(sep) == [""]`. -/
def pySplit (sep : Char) (s : String) : List String :=
  splitSepAux sep s.data []

/-- Helper for `pySplitlines`. -/
def splitlinesAux : List Char → List Char → List String
  | [], [] => []
  | [], acc => [⟨acc.reverse⟩]
  | c :: cs, acc =>
    if c = '\n' then ⟨acc.reverse⟩ :: splitlinesAux cs []
    else splitlinesAux cs (c :: acc)

/-- Python `s.splitlines()`, modelled for the newline character only: no
trailing empty fragment for a trailing newline, and `"".splitlines() == []`. -/
def pySplitlines (s : String) : List String :=
  splitlinesAux s.data []

/-- Whether character `c` occurs in `l`; models Python `c in s` for a
one-character needle. -/
def hasChar (c : Char) : List Char → Bool
  | [] => false
  | a :: as => a = c || hasChar c as

/-- Python `s.lower()`. -/
def pyLower (s : String) : String :=
  ⟨s.data.map Char.toLower⟩

/-- Python slice `s[i:j]` (for the non-negative indices the script uses). -/
def strSlice (s : String) (i j : Nat) : String :=
  ⟨(s.data.take j).drop i⟩

/-- Python `"".join(l)`. -/
def joinStrs : List String → String
  | [] => ""
  | s :: rest => s ++ joinStrs rest

/-- posix `os.path.join(a, b)` for the shapes the script produces. -/
def pathJoin (a b : String) : String :=
  if b.data.head? = some '/' then b
  else if a.data = [] ∨ a.data.getLast? = some '/' then a ++ b
  else a ++ "/" ++ b

/-- The parsed command-line arguments of `wwb.py` (`parse_args`), with the
`argparse` defaults. -/
structure Args where
  base_model : Option String := none
  target_model : Option String := none
  tokenizer : Option String := none
  gt_data : Option String := none
  text_encoder : String := "sentence-transformers/all-mpnet-base-v2"
  dataset : Option String := none
  dataset_field : String := "questions"
  split : Option String := none
  output : Option String := none
  num_samples : Option Nat := none
  verbose : Bool := false
  device : String := "CPU"
  ov_config : Option String := none
  language : Option String := none
  hf : Bool := false

/-- `check_args`: `true` means both `assert` statements pass, `false` means an
`AssertionError` is raised.  The Python asserts use `is None`, not
truthiness. -/
def check_args (args : Args) : Bool :=
  !(args.base_model.isNone && args.target_model.isNone)
  && !(args.base_model.isNone && args.gt_data.isNone)

/-- The model id `load_tokenizer` passes to `AutoTokenizer.from_pretrained`:
`args.tokenizer` if not `None`, else `args.base_model` if not `None`, else
`args.target_model`. -/
def load_tokenizer_id (args : Args) : Option String :=
  if args.tokenizer.isSome then args.tokenizer
  else if args.base_model.isSome then args.base_model
  else args.target_model

/-- The opcode tags of `difflib.SequenceMatcher.get_opcodes`. -/
inductive Tag where
  | equal
  | insert
  | delete
  | replace
deriving DecidableEq

/-- One opcode `(tag, a0, a1, b0, b1)` of `get_opcodes`. -/
structure TagOp where
  tag : Tag
  a0 : Nat
  a1 : Nat
  b0 : Nat
  b1 : Nat
deriving DecidableEq

/-- The fragments `diff_strings` appends to `output` for one opcode. -/
def renderOp (a b green red endgreen endred : String) (op : TagOp) : List String :=
  match op.tag with
  | Tag.equal => [strSlice a op.a0 op.a1]
  | Tag.insert => [green ++ strSlice b op.b0 op.b1 ++ endgreen]
  | Tag.delete => [red ++ strSlice a op.a0 op.a1 ++ endred]
  | Tag.replace =>
    [green ++ strSlice b op.b0 op.b1 ++ endgreen,
     red ++ strSlice a op.a0 op.a1 ++ endred]

/-- `diff_strings(a, b, use_loguru_colors=...)`, with the opcode list of the
external `difflib.SequenceMatcher(None, a, b).get_opcodes()` supplied as a
parameter. -/
def diff_strings (a b : String) (opcodes : List TagOp) (use_loguru_colors : Bool) : String :=
  let green := if use_loguru_colors then "<GREEN><black>" else "\x1b[38;5;16;48;5;2m"
  let red := if use_loguru_colors then "<RED><black>" else "\x1b[38;5;16;48;5;1m"
  let endgreen := if use_loguru_colors then "</black></GREEN>" else "\x1b[0m"
  let endred := if use_loguru_colors then "</black></RED>" else "\x1b[0m"
  joinStrs (opcodes.foldl (fun output op => output ++ renderOp a b green red endgreen endred op) [])

/-- The green highlight marker of `diff_strings` when `use_loguru_colors` is
false. -/
def greenMark : String := "\x1b[38;5;16;48;5;2m"

/-- The red highlight marker of `diff_strings` when `use_loguru_colors` is
false. -/
def redMark : String := "\x1b[38;5;16;48;5;1m"

/-- The reset marker of `diff_strings` when `use_loguru_colors` is false. -/
def resetMark : String := "\x1b[0m"

/-- `difflib.SequenceMatcher(None, a, a).get_opcodes()`, modelled for the
(documented) behaviour of the external matcher on two identical sequences: a
single `equal` opcode spanning both, and the empty list for empty input. -/
def selfOpcodes (a : String) : List TagOp :=
  if a.data.isEmpty then []
  else [⟨Tag.equal, 0, a.data.length, 0, a.data.length⟩]

/-- The `(path, name)` pair `load_prompts` derives from `args.dataset` when it
is set: the first two comma-separated components when a comma is present
(further components are unused), else the whole string with `name = None`. -/
def datasetPathName (ds : String) : String × Option String :=
  if hasChar ',' ds.data then
    let path_name := pySplit ',' ds
    (path_name.getD 0 "", some (path_name.getD 1 ""))
  else (ds, none)

/-- The split `load_prompts` passes to `load_dataset`: `"validation"` unless
`args.split` is not `None`. -/
def splitChoice (args : Args) : String :=
  match args.split with
  | some s => s
  | none => "validation"

/-- The dictionary `{"questions": ...}` returned by `load_prompts`. -/
structure Prompts where
  questions : List String
deriving DecidableEq

/-- Oracle for the external `datasets.load_dataset(path, name, split)[field]`
column read performed by `load_prompts`. -/
structure DataEnv where
  loadDatasetColumn : String → Option String → String → String → List String

/-- `load_prompts(args)`: `None` when `args.dataset is None`, otherwise the
field column of the requested split wrapped as `{"questions": ...}`. -/
def load_prompts (env : DataEnv) (args : Args) : Option Prompts :=
  match args.dataset with
  | none => none
  | some ds =>
    let split := splitChoice args
    let pn := datasetPathName ds
    let res := env.loadDatasetColumn pn.1 pn.2 split args.dataset_field
    some { questions := res }

/-- Parsed contents of the JSON file named by `--ov-config` (opaque to the
script: it is read and passed through to `from_pretrained`). -/
structure OVOpts where
  raw : String
deriving DecidableEq

/-- A Python exception, as far as `load_model` distinguishes them. -/
inductive PyErr where
  | valueError
  | otherErr (msg : String)
deriving DecidableEq

/-- One call to the external `OVModelForCausalLM.from_pretrained`:
`explicit_config` records whether an `AutoConfig`-derived `config=` argument
was passed, `use_cache` the `use_cache=` argument if passed. -/
structure OVCall where
  model_id : Option String
  explicit_config : Bool
  use_cache : Option Bool
  device : String
  ov_config : Option OVOpts
deriving DecidableEq

/-- The model object `load_model` returns, identified by the external call
that produced it. -/
inductive LoadedModel where
  | hfModel (model_id : Option String) (device_map : String)
  | ovModel (call : OVCall)
deriving DecidableEq

/-- Oracles for the external calls `load_model` makes: the OpenVINO
`from_pretrained` (which may raise), and reading the `--ov-config` JSON
file. -/
structure LoadEnv where
  ovLoad : OVCall → Except PyErr Unit
  readJson : String → OVOpts

/-- The `ov_options` value `load_model` computes from its `ov_config`
argument (Python truthiness: `None` for `None` or the empty path). -/
def ovOptionsOf (env : LoadEnv) (ov_config : Option String) : Option OVOpts :=
  match ov_config with
  | some p => if strTruthy p then some (env.readJson p) else none
  | none => none

/-- The first `OVModelForCausalLM.from_pretrained` attempt of `load_model`:
no explicit `config=`, no `use_cache=`. -/
def firstCall (model_id : Option String) (device : String) (opts : Option OVOpts) : OVCall :=
  { model_id := model_id, explicit_config := false, use_cache := none,
    device := device, ov_config := opts }

/-- The retry attempt of `load_model` after a `ValueError`: with an
`AutoConfig`-derived `config=` and `use_cache=True`. -/
def retryCall (model_id : Option String) (device : String) (opts : Option OVOpts) : OVCall :=
  { model_id := model_id, explicit_config := true, use_cache := some true,
    device := device, ov_config := opts }

/-- `load_model(model_id, device, ov_config, use_hf)` (the unused `use_genai`
parameter of the Python signature is omitted).  With `use_hf` it returns a
`transformers` model with `device_map=device.lower()`; otherwise it tries the
OpenVINO backend and retries with an explicit config exactly on
`ValueError`. -/
def load_model (env : LoadEnv) (model_id : Option String) (device : String)
    (ov_config : Option String) (use_hf : Bool) : Except PyErr LoadedModel :=
  if use_hf then
    Except.ok (LoadedModel.hfModel model_id (pyLower device))
  else
    let ov_options := ovOptionsOf env ov_config
    match env.ovLoad (firstCall model_id device ov_options) with
    | Except.ok _ => Except.ok (LoadedModel.ovModel (firstCall model_id device ov_options))
    | Except.error PyErr.valueError =>
      match env.ovLoad (retryCall model_id device ov_options) with
      | Except.ok _ => Except.ok (LoadedModel.ovModel (retryCall model_id device ov_options))
      | Except.error e => Except.error e
    | Except.error (PyErr.otherErr m) => Except.error (PyErr.otherErr m)

/-- Which `load_model` call site inside `main` an event belongs to. -/
inductive Which where
  | base
  | target
deriving DecidableEq

/-- One worst example returned by the external `evaluator.worst_examples`. -/
structure Example where
  source_model : String
  optimized_model : String

/-- The externally visible calls `main` performs, in order, assuming the
external calls succeed. -/
inductive Event where
  | loadModelEv (w : Which) (model_id : Option String)
  | evalInitEv (base : Option (Option String))
  | dumpGtEv (path : String)
  | delBaseEv
  | scoreEv (target_id : String)
  | logMetricsEv
  | mkdirEv (dir : String)
  | writeCsvEv (path : String)
  | worstEv (top_k : Nat) (metric : String)
  | logExampleEv (idx : Nat) (ref actual diff : String)
deriving DecidableEq

/-- Oracles for the external world `main` interacts with: the filesystem
(`os.path.exists`), the `difflib` matcher used by `diff_strings`, and the
`evaluator.worst_examples` result. -/
structure Env where
  pathExists : String → Bool
  opcodes : String → String → List TagOp
  worst : Nat → String → List Example

/-- The condition of `main`'s first branch:
`args.gt_data and os.path.exists(args.gt_data)`. -/
def gtReady (env : Env) (args : Args) : Bool :=
  match args.gt_data with
  | some gt => strTruthy gt && env.pathExists gt
  | none => false

/-- The loop of `main`'s verbose block over the zipped `splitlines` of one
worst example, accumulating `(ref_text, actual_text, diff)` and skipping
pairs in which both lines are empty. -/
def linesFold (env : Env) (pairs : List (String × String)) (acc : String × String × String) :
    String × String × String :=
  pairs.foldl
    (fun acc p =>
      if p.1 = "" ∧ p.2 = "" then acc
      else (acc.1 ++ p.1 ++ "\n", acc.2.1 ++ p.2 ++ "\n",
            acc.2.2 ++ diff_strings p.1 p.2 (env.opcodes p.1 p.2) false ++ "\n"))
    acc

/-- The `(ref_text, actual_text, diff)` triple `main` logs for one worst
example. -/
def exampleTexts (env : Env) (e : Example) : String × String × String :=
  linesFold env ((pySplitlines e.source_model).zip (pySplitlines e.optimized_model)) ("", "", "")

/-- Events of `main`'s evaluator-construction phase: reuse the ground-truth
file, or load the base model (and possibly dump ground truth) and delete
it. -/
def evalPhase (env : Env) (args : Args) : List Event :=
  if gtReady env args then [Event.evalInitEv none]
  else
    [Event.loadModelEv Which.base args.base_model, Event.evalInitEv (some args.base_model)]
    ++ (match args.gt_data with
        | some gt => if strTruthy gt then [Event.dumpGtEv gt] else []
        | none => [])
    ++ [Event.delBaseEv]

/-- Events of `main`'s CSV-output block (nested inside the target block). -/
def outputPhase (env : Env) (args : Args) : List Event :=
  match args.output with
  | some out =>
    if strTruthy out then
      (if env.pathExists out then [] else [Event.mkdirEv out])
      ++ [Event.writeCsvEv (pathJoin out "metrics_per_qustion.csv"),
          Event.writeCsvEv (pathJoin out "metrics.csv")]
    else []
  | none => []

/-- Events of `main`'s `if args.target_model:` block. -/
def targetPhase (env : Env) (args : Args) : List Event :=
  match args.target_model with
  | some t =>
    if strTruthy t then
      [Event.loadModelEv Which.target (some t), Event.scoreEv t, Event.logMetricsEv]
      ++ outputPhase env args
    else []
  | none => []

/-- Events of `main`'s `if args.verbose:` block; the logged example index is
the `i + 1` of the Python `enumerate` loop. -/
def verbosePhase (env : Env) (args : Args) : List Event :=
  if args.verbose then
    Event.worstEv 5 "similarity" ::
    ((env.worst 5 "similarity").enum.map fun ie =>
      Event.logExampleEv (ie.1 + 1) (exampleTexts env ie.2).1 (exampleTexts env ie.2).2.1
        (exampleTexts env ie.2).2.2)
  else []

/-- The events of `main` after `check_args` has passed. -/
def mainTrace (env : Env) (args : Args) : List Event :=
  evalPhase env args ++ targetPhase env args ++ verbosePhase env args

/-- `main()`: `none` models the `AssertionError` of `check_args`, otherwise
the event trace. -/
def mainRun (env : Env) (args : Args) : Option (List Event) :=
  if check_args args then some (mainTrace env args) else none

/-- Whether the trace contains a call to `evaluator.score`. -/
def scoreCalled (tr : List Event) : Bool :=
  tr.any fun e =>
    match e with
    | Event.scoreEv _ => true
    | _ => false

/-- How many times the trace calls `load_model` at the base-model call
site. -/
def countBaseLoads (tr : List Event) : Nat :=
  tr.countP fun e =>
    match e with
    | Event.loadModelEv Which.base _ => true
    | _ => false

/-- The paths of the CSV files the trace writes, in order. -/
def csvWrites (tr : List Event) : List String :=
  tr.filterMap fun e =>
    match e with
    | Event.writeCsvEv p => some p
    | _ => none

/-- The `(index, ref_text, actual_text, diff)` tuples the trace logs in the
verbose block, in order. -/
def logExamples (tr : List Event) : List (Nat × String × String × String) :=
  tr.filterMap fun e =>
    match e with
    | Event.logExampleEv i r a d => some (i, r, a, d)
    | _ => none

/-- The zipped line pairs of a worst example that the verbose loop keeps
(both-empty pairs are skipped). -/
def keptPairs (a b : String) : List (String × String) :=
  ((pySplitlines a).zip (pySplitlines b)).filter fun p => !decide (p.1 = "" ∧ p.2 = "")

/-- The reference text the claim predicts for one worst example. -/
def refSpec (a b : String) : String :=
  joinStrs ((keptPairs a b).map fun p => p.1 ++ "\n")

/-- The actual text the claim predicts for one worst example. -/
def actSpec (a b : String) : String :=
  joinStrs ((keptPairs a b).map fun p => p.2 ++ "\n")

/-- The per-line diff the claim predicts for one worst example. -/
def diffSpec (env : Env) (a b : String) : String :=
  joinStrs ((keptPairs a b).map fun p => diff_strings p.1 p.2 (env.opcodes p.1 p.2) false ++ "\n")

/-- A trivial environment for concrete test configurations: no file exists,
the matcher returns no opcodes, there are no worst examples. -/
def envTrivial : Env :=
  { pathExists := fun _ => false, opcodes := fun _ _ => [], worst := fun _ _ => [] }

/-- An environment in which every path exists. -/
def envAllExists : Env :=
  { pathExists := fun _ => true, opcodes := fun _ _ => [], worst := fun _ _ => [] }

/-- An environment with one worst example, used to exercise the verbose
block. -/
def envOneExample : Env :=
  { pathExists := fun _ => false, opcodes := fun _ _ => [],
    worst := fun _ _ => [{ source_model := "hello\nworld", optimized_model := "hello\nworms" }] }

/-- An accepted configuration with a base model only: `check_args` passes but
no target model is given. -/
def argsBaseOnly : Args :=
  { base_model := some "m" }

/-- An accepted configuration with base and target models, an output
directory and ground-truth dump path. -/
def argsFull : Args :=
  { base_model := some "m", target_model := some "t", gt_data := some "gt.csv",
    output := some "outdir" }

/-- An accepted verbose configuration. -/
def argsVerbose : Args :=
  { base_model := some "m", target_model := some "t", verbose := true }

/-- An accepted configuration reusing an existing ground-truth file. -/
def argsGt : Args :=
  { target_model := some "t", gt_data := some "gt.csv" }

/-- A trivial dataset oracle. -/
def dataEnvTrivial : DataEnv :=
  { loadDatasetColumn := fun _ _ _ _ => ["q1", "q2"] }

/-- A configuration naming a dataset with path, name and an extra discarded
component. -/
def argsDataset : Args :=
  { base_model := some "m", dataset := some "wikitext,wikitext-2-v1,extra", split := some "train" }

/-- A loader environment whose first OpenVINO attempt always succeeds. -/
def loadEnvOk : LoadEnv :=
  { ovLoad := fun _ => Except.ok (), readJson := fun s => { raw := s } }

/-- The events of a trace that occur before the `del base_model` step. -/
def beforeDel (tr : List Event) : List Event :=
  tr.takeWhile fun e => !(e == Event.delBaseEv)

/-- A configuration naming a dataset without a comma. -/
def argsDatasetPlain : Args :=
  { base_model := some "m", dataset := some "squad" }

/- Auxiliary lemmas about the string helpers. -/

theorem string_eq_of_data (a b : String) (h : a.data = b.data) : a = b := by
  cases a
  cases b
  exact congrArg String.mk (by simpa using h)

theorem empty_append_str (x : String) : "" ++ x = x := by
  cases x
  rfl

theorem strSlice_full (a : String) : strSlice a 0 a.data.length = a := by
  cases a
  simp [strSlice]

theorem splitSepAux_length_ge (sep : Char) (l acc : List Char) :
    1 ≤ (splitSepAux sep l acc).length := by
  induction l generalizing acc with
  | nil => simp [splitSepAux]
  | cons c cs ih =>
    by_cases h : c = sep
    · simp [splitSepAux, h]
    · simpa [splitSepAux, h] using ih (c :: acc)

theorem splitSepAux_hasChar (sep : Char) (l acc : List Char) (p n : String)
    (rest : List String) (h : splitSepAux sep l acc = p :: n :: rest) :
    hasChar sep l = true := by
  induction l generalizing acc with
  | nil => simp [splitSepAux] at h
  | cons c cs ih =>
    by_cases hc : c = sep
    · simp [hasChar, hc]
    · simp only [splitSepAux, if_neg hc] at h
      simpa [hasChar, hc] using ih (c :: acc) h

theorem append_empty_str (x : String) : x ++ "" = x :=
  String.append_empty x

theorem joinStrs_append (u v : List String) :
    joinStrs (u ++ v) = joinStrs u ++ joinStrs v := by
  induction u with
  | nil => simp [joinStrs, String.empty_append]
  | cons s rest ih => simp [joinStrs, ih, String.append_assoc]

theorem foldl_append_flatMap (f : TagOp → List String) (l : List TagOp) (init : List String) :
    l.foldl (fun out op => out ++ f op) init = init ++ l.flatMap f := by
  induction l generalizing init with
  | nil => simp
  | cons op ops ih => simp [List.flatMap_cons, ih, List.append_assoc]

theorem diff_strings_flatMap (x y : String) (ops : List TagOp) :
    diff_strings x y ops false =
      joinStrs (ops.flatMap (renderOp x y greenMark redMark resetMark resetMark)) := by
  rw [diff_strings, foldl_append_flatMap]
  rfl

/-- C2: `diff_strings(a, b)` is the concatenation, in the order of the
matcher's opcodes, of the unchanged `a` slice for `equal`, the green-wrapped
`b` slice for `insert`, the red-wrapped `a` slice for `delete`, and the
green-wrapped `b` slice followed by the red-wrapped `a` slice for `replace`;
in particular, on the matcher's opcodes for two identical strings it returns
the string unchanged. -/
theorem diff_strings_spec (a b : String) (opcodes : List TagOp) :
    (diff_strings a b opcodes false =
      joinStrs (opcodes.flatMap fun op =>
        match op.tag with
        | Tag.equal => [strSlice a op.a0 op.a1]
        | Tag.insert => [greenMark ++ strSlice b op.b0 op.b1 ++ resetMark]
        | Tag.delete => [redMark ++ strSlice a op.a0 op.a1 ++ resetMark]
        | Tag.replace =>
          [greenMark ++ strSlice b op.b0 op.b1 ++ resetMark,
           redMark ++ strSlice a op.a0 op.a1 ++ resetMark]))
    ∧ diff_strings a a (selfOpcodes a) false = a := by
  constructor
  · rw [diff_strings_flatMap]
    rfl
  · cases h : a.data.isEmpty with
    | true =>
      have ha : a = "" := string_eq_of_data a "" (by simpa using h)
      subst ha
      rfl
    | false =>
      rw [diff_strings_flatMap]
      simp [selfOpcodes, h, renderOp, joinStrs, append_empty_str]
      exact strSlice_full a

/-- C8: `check_args` raises `AssertionError` exactly when both model ids are
`None`, or the base model and the ground-truth path are both `None`; every
other configuration passes. -/
theorem check_args_assertion (args : Args) :
    check_args args = false ↔
      ((args.base_model = none ∧ args.target_model = none)
        ∨ (args.base_model = none ∧ args.gt_data = none)) := by
  obtain ⟨b, t, tok, gt, te, ds, dsf, sp, out, ns, v, dev, ovc, lang, hf⟩ := args
  cases b <;> cases t <;> cases gt <;> simp [check_args]

/-- C9: under the `check_args` precondition that not both model ids are
`None`, `load_tokenizer` never passes `None` to `from_pretrained`: it uses
`args.tokenizer` when set, else `args.base_model` when set, else
`args.target_model`. -/
theorem load_tokenizer_total (args : Args)
    (h : ¬(args.base_model = none ∧ args.target_model = none)) :
    (load_tokenizer_id args).isSome = true
    ∧ (args.tokenizer.isSome = true → load_tokenizer_id args = args.tokenizer)
    ∧ (args.tokenizer = none → args.base_model.isSome = true →
        load_tokenizer_id args = args.base_model)
    ∧ (args.tokenizer = none → args.base_model = none →
        load_tokenizer_id args = args.target_model) := by
  obtain ⟨b, t, tok, gt, te, ds, dsf, sp, out, ns, v, dev, ovc, lang, hf⟩ := args
  cases tok <;> cases b <;> cases t <;> simp_all [load_tokenizer_id]

theorem load_tokenizer_total_witness :
    (load_tokenizer_id argsBaseOnly).isSome = true :=
  (load_tokenizer_total argsBaseOnly (by decide)).1

/-- C10: when `args.dataset` splits at commas into at least two components,
`load_prompts` uses the first component as the dataset path and the second as
the config name (later components are discarded, and a trailing comma yields
the empty string, not `None`, as the name). -/
theorem load_prompts_comma_split (ds p n : String) (rest : List String)
    (h : pySplit ',' ds = p :: n :: rest) :
    hasChar ',' ds.data = true
    ∧ datasetPathName ds = (p, some n)
    ∧ ∀ env : DataEnv, ∀ args : Args, args.dataset = some ds →
        load_prompts env args =
          some { questions :=
                  env.loadDatasetColumn p (some n) (splitChoice args) args.dataset_field } := by
  have hc : hasChar ',' ds.data = true := splitSepAux_hasChar ',' ds.data [] p n rest h
  have hpn : datasetPathName ds = (p, some n) := by
    simp [datasetPathName, hc, pySplit] at h ⊢
    simp [h]
  refine ⟨hc, hpn, ?_⟩
  intro env args hds
  simp [load_prompts, hds, hpn]

theorem load_prompts_comma_split_witness :
    load_prompts dataEnvTrivial argsDataset = some { questions := ["q1", "q2"] } := by
  have h := load_prompts_comma_split "wikitext,wikitext-2-v1,extra" "wikitext"
    "wikitext-2-v1" ["extra"] (by decide)
  exact h.2.2 dataEnvTrivial argsDataset rfl

/-- C7: with `use_hf`, `load_model` returns a `transformers` model with the
device lowercased and `ov_config` ignored; otherwise it attempts the OpenVINO
backend without an explicit config, retries with an `AutoConfig`-derived
config and `use_cache=True` exactly when the first attempt raises
`ValueError`, and propagates any other exception. -/
theorem load_model_backends (env : LoadEnv) (model_id : Option String)
    (device : String) (ov_config : Option String) :
    (load_model env model_id device ov_config true
        = Except.ok (LoadedModel.hfModel model_id (pyLower device))
      ∧ load_model env model_id device ov_config true
        = load_model env model_id device none true)
    ∧ (env.ovLoad (firstCall model_id device (ovOptionsOf env ov_config)) = Except.ok () →
        load_model env model_id device ov_config false
          = Except.ok (LoadedModel.ovModel (firstCall model_id device (ovOptionsOf env ov_config))))
    ∧ (env.ovLoad (firstCall model_id device (ovOptionsOf env ov_config))
          = Except.error PyErr.valueError →
        load_model env model_id device ov_config false
          = (match env.ovLoad (retryCall model_id device (ovOptionsOf env ov_config)) with
             | Except.ok _ =>
               Except.ok (LoadedModel.ovModel (retryCall model_id device (ovOptionsOf env ov_config)))
             | Except.error e => Except.error e))
    ∧ (∀ m : String,
        env.ovLoad (firstCall model_id device (ovOptionsOf env ov_config))
            = Except.error (PyErr.otherErr m) →
          load_model env model_id device ov_config false = Except.error (PyErr.otherErr m)) := by
  refine ⟨⟨rfl, rfl⟩, fun h => ?_, fun h => ?_, fun m h => ?_⟩ <;>
    simp [load_model, h]

theorem load_model_backends_witness :
    load_model loadEnvOk (some "m") "CPU" none false
      = Except.ok (LoadedModel.ovModel (firstCall (some "m") "CPU" none)) :=
  (load_model_backends loadEnvOk (some "m") "CPU" none).2.1 rfl

theorem scoreCalled_append (u v : List Event) :
    scoreCalled (u ++ v) = (scoreCalled u || scoreCalled v) := by
  simp [scoreCalled, List.any_append]

theorem csvWrites_append (u v : List Event) :
    csvWrites (u ++ v) = csvWrites u ++ csvWrites v := by
  simp [csvWrites, List.filterMap_append]

theorem logExamples_append (u v : List Event) :
    logExamples (u ++ v) = logExamples u ++ logExamples v := by
  simp [logExamples, List.filterMap_append]

theorem countBaseLoads_append (u v : List Event) :
    countBaseLoads (u ++ v) = countBaseLoads u + countBaseLoads v := by
  simp [countBaseLoads, List.countP_append]

theorem csvWrites_evalPhase (env : Env) (args : Args) :
    csvWrites (evalPhase env args) = [] := by
  cases hg : gtReady env args with
  | true => simp [evalPhase, hg, csvWrites]
  | false =>
    cases hgt : args.gt_data with
    | none => simp [evalPhase, hg, hgt, csvWrites]
    | some gt =>
      cases hst : strTruthy gt <;> simp [evalPhase, hg, hgt, hst, csvWrites]

theorem csvWrites_verbosePhase (env : Env) (args : Args) :
    csvWrites (verbosePhase env args) = [] := by
  cases hv : args.verbose <;>
    simp [verbosePhase, hv, csvWrites, List.filterMap_map, Function.comp]

theorem worstEv_not_evalPhase (env : Env) (args : Args) (k : Nat) (m : String) :
    Event.worstEv k m ∉ evalPhase env args := by
  cases hg : gtReady env args with
  | true => simp [evalPhase, hg]
  | false =>
    cases hgt : args.gt_data with
    | none => simp [evalPhase, hg, hgt]
    | some gt =>
      cases hst : strTruthy gt <;> simp [evalPhase, hg, hgt, hst]

theorem worstEv_not_targetPhase (env : Env) (args : Args) (k : Nat) (m : String) :
    Event.worstEv k m ∉ targetPhase env args := by
  cases h : args.target_model with
  | none => simp [targetPhase, h]
  | some t =>
    cases hst : strTruthy t with
    | false => simp [targetPhase, h, hst]
    | true =>
      cases ho : args.output with
      | none => simp [targetPhase, h, hst, outputPhase, ho]
      | some out =>
        cases hso : strTruthy out with
        | false => simp [targetPhase, h, hst, outputPhase, ho, hso]
        | true =>
          cases hex : env.pathExists out <;>
            simp [targetPhase, h, hst, outputPhase, ho, hso, hex]

theorem logExamples_evalPhase (env : Env) (args : Args) :
    logExamples (evalPhase env args) = [] := by
  cases hg : gtReady env args with
  | true => simp [evalPhase, hg, logExamples]
  | false =>
    cases hgt : args.gt_data with
    | none => simp [evalPhase, hg, hgt, logExamples]
    | some gt =>
      cases hst : strTruthy gt <;> simp [evalPhase, hg, hgt, hst, logExamples]

theorem logExamples_outputPhase (env : Env) (args : Args) :
    logExamples (outputPhase env args) = [] := by
  cases h : args.output with
  | none => simp [outputPhase, h, logExamples]
  | some out =>
    cases hst : strTruthy out with
    | false => simp [outputPhase, h, hst, logExamples]
    | true =>
      cases hex : env.pathExists out <;>
        simp [outputPhase, h, hst, hex, logExamples]

theorem logExamples_targetPhase (env : Env) (args : Args) :
    logExamples (targetPhase env args) = [] := by
  cases h : args.target_model with
  | none => simp [targetPhase, h, logExamples]
  | some t =>
    cases hst : strTruthy t with
    | false => simp [targetPhase, h, hst, logExamples]
    | true =>
      simp only [targetPhase, h, hst, if_true]
      rw [logExamples_append, logExamples_outputPhase]
      rfl

theorem countBaseLoads_outputPhase (env : Env) (args : Args) :
    countBaseLoads (outputPhase env args) = 0 := by
  cases h : args.output with
  | none => simp [outputPhase, h, countBaseLoads]
  | some out =>
    cases hst : strTruthy out with
    | false => simp [outputPhase, h, hst, countBaseLoads]
    | true =>
      cases hex : env.pathExists out <;>
        simp [outputPhase, h, hst, hex, countBaseLoads]

theorem countBaseLoads_targetPhase (env : Env) (args : Args) :
    countBaseLoads (targetPhase env args) = 0 := by
  cases h : args.target_model with
  | none => simp [targetPhase, h, countBaseLoads]
  | some t =>
    cases hst : strTruthy t with
    | false => simp [targetPhase, h, hst, countBaseLoads]
    | true =>
      simp only [targetPhase, h, hst, if_true]
      rw [countBaseLoads_append, countBaseLoads_outputPhase]
      rfl

theorem countBaseLoads_verbosePhase (env : Env) (args : Args) :
    countBaseLoads (verbosePhase env args) = 0 := by
  cases hv : args.verbose with
  | false => simp [verbosePhase, hv, countBaseLoads]
  | true =>
    simp [verbosePhase, hv, countBaseLoads, List.countP_cons, List.countP_map, Function.comp]

theorem mkdir_not_evalPhase (env : Env) (args : Args) (d : String) :
    Event.mkdirEv d ∉ evalPhase env args := by
  cases hg : gtReady env args with
  | true => simp [evalPhase, hg]
  | false =>
    cases hgt : args.gt_data with
    | none => simp [evalPhase, hg, hgt]
    | some gt =>
      cases hst : strTruthy gt <;> simp [evalPhase, hg, hgt, hst]

theorem mkdir_not_verbosePhase (env : Env) (args : Args) (d : String) :
    Event.mkdirEv d ∉ verbosePhase env args := by
  cases hv : args.verbose <;> simp [verbosePhase, hv]

theorem worstEv_not_verbosePhase_false (env : Env) (args : Args) (k : Nat) (m : String)
    (hv : args.verbose = false) : Event.worstEv k m ∉ verbosePhase env args := by
  simp [verbosePhase, hv]

theorem beq_loadModel_delBase (w : Which) (m : Option String) :
    (Event.loadModelEv w m == Event.delBaseEv) = false := by
  rfl

theorem beq_evalInit_delBase (b : Option (Option String)) :
    (Event.evalInitEv b == Event.delBaseEv) = false := by
  rfl

theorem beq_dump_delBase (p : String) :
    (Event.dumpGtEv p == Event.delBaseEv) = false := by
  rfl

theorem linesFold_spec (env : Env) (pairs : List (String × String)) (r a d : String) :
    linesFold env pairs (r, a, d)
      = (r ++ joinStrs ((pairs.filter fun p => !decide (p.1 = "" ∧ p.2 = "")).map
              fun p => p.1 ++ "\n"),
         a ++ joinStrs ((pairs.filter fun p => !decide (p.1 = "" ∧ p.2 = "")).map
              fun p => p.2 ++ "\n"),
         d ++ joinStrs ((pairs.filter fun p => !decide (p.1 = "" ∧ p.2 = "")).map
              fun p => diff_strings p.1 p.2 (env.opcodes p.1 p.2) false ++ "\n")) := by
  induction pairs generalizing r a d with
  | nil => simp [linesFold, joinStrs, append_empty_str]
  | cons p ps ih =>
    have hstep : linesFold env (p :: ps) (r, a, d)
        = linesFold env ps (if p.1 = "" ∧ p.2 = "" then (r, a, d)
            else (r ++ p.1 ++ "\n", a ++ p.2 ++ "\n",
                  d ++ diff_strings p.1 p.2 (env.opcodes p.1 p.2) false ++ "\n")) := rfl
    rw [hstep]
    by_cases h : p.1 = "" ∧ p.2 = ""
    · rw [if_pos h, ih]
      simp [List.filter_cons, h]
    · rw [if_neg h, ih]
      have h2 := not_and_or.mp h
      simp [List.filter_cons, h, h2, joinStrs, String.append_assoc]

theorem exampleTexts_spec (env : Env) (e : Example) :
    exampleTexts env e
      = (refSpec e.source_model e.optimized_model,
         actSpec e.source_model e.optimized_model,
         diffSpec env e.source_model e.optimized_model) := by
  rw [exampleTexts, linesFold_spec]
  simp [refSpec, actSpec, diffSpec, keptPairs, String.empty_append]

/-- C1 counterexample: the configuration with only `--base-model` set is
accepted by `check_args`, yet `main` never invokes `evaluator.score` (the
whole target-model block is skipped), so no similarity/divergence metrics are
computed. -/
theorem main_accepted_without_score :
    check_args argsBaseOnly = true
    ∧ scoreCalled (mainTrace envTrivial argsBaseOnly) = false := by
  constructor <;> rfl

/-- C1 (amended): for every argument configuration accepted by `check_args`
in which a (non-empty) target model is supplied, `main` loads the target
model and invokes `evaluator.score` on it; the base side is generated by a
freshly loaded base model exactly when no existing ground-truth file is
being reused, and otherwise the evaluator is built from the ground-truth
data with `base_model=None`. -/
theorem main_scores_when_target_given (env : Env) (args : Args)
    (hc : check_args args = true) (ht : pyTruthy args.target_model = true) :
    Event.loadModelEv Which.target (some (args.target_model.getD "")) ∈ mainTrace env args
    ∧ Event.scoreEv (args.target_model.getD "") ∈ mainTrace env args
    ∧ (gtReady env args = false →
        Event.loadModelEv Which.base args.base_model ∈ mainTrace env args
        ∧ Event.evalInitEv (some args.base_model) ∈ mainTrace env args)
    ∧ (gtReady env args = true → Event.evalInitEv none ∈ mainTrace env args) := by
  cases htm : args.target_model with
  | none => simp [pyTruthy, htm] at ht
  | some t =>
    have hst : strTruthy t = true := by simpa [pyTruthy, htm] using ht
    refine ⟨?_, ?_, fun hg => ⟨?_, ?_⟩, fun hg => ?_⟩
    · simp [mainTrace, targetPhase, htm, hst]
    · simp [mainTrace, targetPhase, htm, hst]
    · simp [mainTrace, evalPhase, hg]
    · simp [mainTrace, evalPhase, hg]
    · simp [mainTrace, evalPhase, hg]

theorem main_scores_when_target_given_witness :
    Event.scoreEv "t" ∈ mainTrace envTrivial argsVerbose := by
  have h := main_scores_when_target_given envTrivial argsVerbose (by decide) (by decide)
  exact h.2.1

/-- C3: when `--gt-data` names an existing file, `main` builds the
`Evaluator` with `base_model=None` and never calls `load_model` on the base
model; otherwise it loads the base model, builds the `Evaluator` with it,
and, when `--gt-data` was given (file absent), dumps the base-model
generations to that path before the base model is deleted. -/
theorem main_ground_truth_handling (env : Env) (args : Args)
    (hc : check_args args = true) :
    (gtReady env args = true →
        Event.evalInitEv none ∈ mainTrace env args
        ∧ countBaseLoads (mainTrace env args) = 0)
    ∧ (gtReady env args = false →
        Event.loadModelEv Which.base args.base_model ∈ mainTrace env args
        ∧ Event.evalInitEv (some args.base_model) ∈ mainTrace env args
        ∧ (pyTruthy args.gt_data = true →
            Event.dumpGtEv (args.gt_data.getD "") ∈ beforeDel (mainTrace env args)
            ∧ Event.delBaseEv ∈ mainTrace env args)) := by
  constructor
  · intro hg
    constructor
    · simp [mainTrace, evalPhase, hg]
    · rw [mainTrace, countBaseLoads_append, countBaseLoads_append,
        countBaseLoads_targetPhase, countBaseLoads_verbosePhase]
      simp [evalPhase, hg, countBaseLoads]
  · intro hg
    refine ⟨?_, ?_, ?_⟩
    · simp [mainTrace, evalPhase, hg]
    · simp [mainTrace, evalPhase, hg]
    · intro ht
      cases hgt : args.gt_data with
      | none => simp [pyTruthy, hgt] at ht
      | some gt =>
        have hst : strTruthy gt = true := by simpa [pyTruthy, hgt] using ht
        constructor
        · simp [mainTrace, beforeDel, evalPhase, hg, hgt, hst, List.takeWhile_cons,
            beq_loadModel_delBase, beq_evalInit_delBase, beq_dump_delBase]
        · simp [mainTrace, evalPhase, hg, hgt, hst]

theorem main_ground_truth_handling_witness :
    Event.evalInitEv none ∈ mainTrace envAllExists argsGt :=
  ((main_ground_truth_handling envAllExists argsGt (by decide)).1 (by decide)).1

/-- C4: `main` writes CSV files exactly when both a (non-empty) target model
and output directory are supplied: it then creates the directory when it does
not exist and writes exactly the per-question table
`metrics_per_qustion.csv` followed by the aggregate table `metrics.csv` into
it; otherwise no CSV file is written. -/
theorem main_csv_files (env : Env) (args : Args) (hc : check_args args = true) :
    (pyTruthy args.target_model = true → pyTruthy args.output = true →
        csvWrites (mainTrace env args)
          = [pathJoin (args.output.getD "") "metrics_per_qustion.csv",
             pathJoin (args.output.getD "") "metrics.csv"]
        ∧ (env.pathExists (args.output.getD "") = false ↔
            Event.mkdirEv (args.output.getD "") ∈ mainTrace env args))
    ∧ ((pyTruthy args.target_model && pyTruthy args.output) = false →
        csvWrites (mainTrace env args) = []) := by
  constructor
  · intro ht ho
    cases htm : args.target_model with
    | none => simp [pyTruthy, htm] at ht
    | some t =>
      cases hout : args.output with
      | none => simp [pyTruthy, hout] at ho
      | some out =>
        have hstt : strTruthy t = true := by simpa [pyTruthy, htm] using ht
        have hsto : strTruthy out = true := by simpa [pyTruthy, hout] using ho
        simp only [Option.getD_some]
        constructor
        · rw [mainTrace, csvWrites_append, csvWrites_append, csvWrites_evalPhase,
            csvWrites_verbosePhase]
          cases hex : env.pathExists out <;>
            simp [targetPhase, htm, hstt, outputPhase, hout, hsto, hex,
              csvWrites_append, csvWrites]
        · constructor
          · intro hex
            simp [mainTrace, targetPhase, htm, hstt, outputPhase, hout, hsto, hex]
          · intro hmem
            cases hex : env.pathExists out with
            | false => rfl
            | true =>
              exfalso
              rw [mainTrace] at hmem
              rcases List.mem_append.1 hmem with h12 | h4
              · rcases List.mem_append.1 h12 with h1 | h3
                · exact mkdir_not_evalPhase env args out h1
                · simp [targetPhase, htm, hstt, outputPhase, hout, hsto, hex] at h3
              · exact mkdir_not_verbosePhase env args out h4
  · intro hto
    rw [mainTrace, csvWrites_append, csvWrites_append, csvWrites_evalPhase,
      csvWrites_verbosePhase]
    rcases Bool.and_eq_false_iff.mp hto with ht | ho
    · cases htm : args.target_model with
      | none => simp [targetPhase, htm, csvWrites]
      | some t =>
        have hstt : strTruthy t = false := by simpa [pyTruthy, htm] using ht
        simp [targetPhase, htm, hstt, csvWrites]
    · cases htm : args.target_model with
      | none => simp [targetPhase, htm, csvWrites]
      | some t =>
        cases hstt : strTruthy t with
        | false => simp [targetPhase, htm, hstt, csvWrites]
        | true =>
          cases hout : args.output with
          | none => simp [targetPhase, htm, hstt, outputPhase, hout, csvWrites,
              csvWrites_append]
          | some out =>
            have hsto : strTruthy out = false := by simpa [pyTruthy, hout] using ho
            simp [targetPhase, htm, hstt, outputPhase, hout, hsto, csvWrites,
              csvWrites_append]

theorem main_csv_files_witness :
    csvWrites (mainTrace envTrivial argsFull)
      = [pathJoin "outdir" "metrics_per_qustion.csv", pathJoin "outdir" "metrics.csv"] :=
  ((main_csv_files envTrivial argsFull (by decide)).1 (by decide) (by decide)).1

theorem logExamples_worst_cons (k : Nat) (m : String) (tr : List Event) :
    logExamples (Event.worstEv k m :: tr) = logExamples tr := rfl

theorem logExamples_map (l : List (Nat × Example)) (g : Nat × Example → Nat)
    (r a d : Nat × Example → String) :
    logExamples (l.map fun ie => Event.logExampleEv (g ie) (r ie) (a ie) (d ie))
      = l.map fun ie => (g ie, r ie, a ie, d ie) := by
  induction l with
  | nil => rfl
  | cons x xs ih => simpa [logExamples, List.filterMap_cons] using ih

/-- C5: the top-k diff view is produced exactly when `--verbose` is passed:
`main` then fetches the `top_k=5` worst examples by the `similarity` metric
and, for each, logs the reference text, the actual text, and a per-line diff
built with `diff_strings` over the zipped line pairs of the two texts,
skipping pairs in which both lines are empty. -/
theorem main_verbose_logging (env : Env) (args : Args) (hc : check_args args = true) :
    (Event.worstEv 5 "similarity" ∈ mainTrace env args ↔ args.verbose = true)
    ∧ (args.verbose = true →
        logExamples (mainTrace env args)
          = (env.worst 5 "similarity").enum.map fun ie =>
              (ie.1 + 1, refSpec ie.2.source_model ie.2.optimized_model,
               actSpec ie.2.source_model ie.2.optimized_model,
               diffSpec env ie.2.source_model ie.2.optimized_model)) := by
  constructor
  · constructor
    · intro hmem
      by_contra hv
      have hv' : args.verbose = false := by
        revert hv
        cases args.verbose <;> simp
      rw [mainTrace] at hmem
      rcases List.mem_append.1 hmem with h12 | h4
      · rcases List.mem_append.1 h12 with h1 | h3
        · exact worstEv_not_evalPhase env args 5 "similarity" h1
        · exact worstEv_not_targetPhase env args 5 "similarity" h3
      · exact worstEv_not_verbosePhase_false env args 5 "similarity" hv' h4
    · intro hv
      simp [mainTrace, verbosePhase, hv]
  · intro hv
    rw [mainTrace, logExamples_append, logExamples_append, logExamples_evalPhase,
      logExamples_targetPhase]
    simp only [List.nil_append, List.append_nil]
    simp only [verbosePhase, hv, if_true]
    rw [logExamples_worst_cons]
    refine Eq.trans (logExamples_map (env.worst 5 "similarity").enum
      (fun ie => ie.1 + 1) (fun ie => (exampleTexts env ie.2).1)
      (fun ie => (exampleTexts env ie.2).2.1) (fun ie => (exampleTexts env ie.2).2.2)) ?_
    simp [exampleTexts_spec]

theorem main_verbose_logging_witness :
    logExamples (mainTrace envOneExample argsVerbose)
      = [(1, "hello\nworld\n", "hello\nworms\n", "\n\n")] := by
  have h := (main_verbose_logging envOneExample argsVerbose (by decide)).2 rfl
  rw [h]
  decide

/-- C6: `load_prompts` returns `None` exactly when `args.dataset` is `None`;
otherwise it loads the `"validation"` split unless `--split` is given, and
returns the dictionary `{"questions": l}` where `l` is the list of values of
the `args.dataset_field` column of that split. -/
theorem load_prompts_structure (env : DataEnv) (args : Args) :
    (load_prompts env args = none ↔ args.dataset = none)
    ∧ (args.split = none → splitChoice args = "validation")
    ∧ (∀ s : String, args.split = some s → splitChoice args = s)
    ∧ (args.dataset.isSome = true →
        load_prompts env args
          = some { questions :=
                     env.loadDatasetColumn (datasetPathName (args.dataset.getD "")).1
                       (datasetPathName (args.dataset.getD "")).2 (splitChoice args)
                       args.dataset_field }) := by
  refine ⟨?_, ?_, ?_, ?_⟩
  · cases h : args.dataset <;> simp [load_prompts, h]
  · intro h
    simp [splitChoice, h]
  · intro s h
    simp [splitChoice, h]
  · intro h
    cases hd : args.dataset with
    | none => simp [hd] at h
    | some ds => simp [load_prompts, hd]

theorem load_prompts_structure_witness :
    load_prompts dataEnvTrivial argsDatasetPlain = some { questions := ["q1", "q2"] } := by
  have h := (load_prompts_structure dataEnvTrivial argsDatasetPlain).2.2.2 rfl
  rw [h]
  decide
